import Mathlib

/-!
Verification of the AURA enrichment, fusion and ranking engine.

The development shallowly embeds the Python sources of the repository:
floats are modelled as rationals, JSON values as an inductive type,
dictionaries as association lists, and the file-system effects of the
cache writer as explicit operation traces.  Each definition mirrors one
function of the sources, keeping its name where Lean allows it.
-/

namespace Aura

/-! ### Rounding

Python `round(x, n)` rounds half to even.  `roundHalfEven` is the integer
version; `round1` and `round2` are `round(x, 1)` and `round(x, 2)`. -/

/-- Round a rational to the nearest integer, ties to the even neighbour. -/
def roundHalfEven (q : ℚ) : ℤ :=
  let f := ⌊q⌋
  let r := q - (f : ℚ)
  if r < 1/2 then f
  else if 1/2 < r then f + 1
  else if f % 2 = 0 then f else f + 1

/-- Python round(x, 1). -/
def round1 (q : ℚ) : ℚ := (roundHalfEven (10 * q) : ℚ) / 10

/-- Python round(x, 2). -/
def round2 (q : ℚ) : ℚ := (roundHalfEven (100 * q) : ℚ) / 100

/-! ### scripts/scoring.py -/

/-- Severity normalization from scoring.py line 27: min(max(cvss / 10, 0), 1). -/
def cvssNorm (cvss : ℚ) : ℚ := min (max (cvss / 10) 0) 1

/-- Embedding of compute_aura_score (scripts/scoring.py lines 4-47).
Arguments appear in the order of the Python signature. -/
def compute_aura_score (cvss epss : ℚ) (kev : Bool) (ctx_mult trend_score : ℚ)
    (exploit_poc : Bool) (ai_context : ℚ) : ℚ :=
  let cvss_n := cvssNorm cvss
  let epss_n := min (max epss 0) 1
  let kev_n : ℚ := if kev then 1 else 0
  let exploit_n : ℚ := if exploit_poc then 1 else 0
  let trend_n := min (max trend_score 0) 1
  let ai_n := min (max ai_context 0) 1
  let score := cvss_n * (4/10) + epss_n * (2/10) + kev_n * (2/10)
    + exploit_n * (1/10) + trend_n * (5/100) + ai_n * (5/100)
  round1 (score * ctx_mult * 100)

/-! ### Ranking (scripts/aura_update.py lines 339-340)

The orchestrator runs records.sort keyed on aura_score with reverse set,
which is a stable descending sort: equal scores keep their input order and
no identifier tie-break is applied.  A stable insertion sort is the
canonical functional model; the stability theorem below pins it uniquely. -/

/-- Scored record: the two fields of the orchestrator record dictionaries
that ranking inspects (the sort key is x.get with default 0 on the
aura_score field, present on every record built by the loop). -/
structure ScoredRecord where
  cve : String
  aura_score : ℚ
deriving DecidableEq

/-- Insert an element into a descending-sorted list, before the first
element whose key is not greater: a stable descending insertion. -/
def insertDescBy {α β : Type} [LinearOrder β] (key : α → β) (x : α) :
    List α → List α
  | [] => [x]
  | y :: ys => if key y ≤ key x then x :: y :: ys else y :: insertDescBy key x ys

/-- Stable descending insertion sort by a key. -/
def sortDescBy {α β : Type} [LinearOrder β] (key : α → β) : List α → List α
  | [] => []
  | x :: xs => insertDescBy key x (sortDescBy key xs)

/-- Embedding of records.sort keyed on aura_score, reversed (line 339). -/
def sortRecords (l : List ScoredRecord) : List ScoredRecord :=
  sortDescBy (fun r => r.aura_score) l

/-! ### JSON values and dictionaries

Parsed JSON documents are modelled by JVal; Python dicts by association
lists in insertion order (JSON objects produced by json.load have unique
keys, later duplicate assignments overwrite in place). -/

inductive JVal where
  | jnull
  | jbool (b : Bool)
  | jnum (n : Int)
  | jstr (s : String)
  | jarr (els : List JVal)
  | jobj (fields : List (String × JVal))

/-- Dictionary lookup. -/
def lookupA {α : Type} : List (String × α) → String → Option α
  | [], _ => none
  | (k, v) :: t, key => if k = key then some v else lookupA t key

/-- Dictionary assignment: overwrite in place, or append a new key. -/
def insertA {α : Type} : List (String × α) → String → α → List (String × α)
  | [], k, v => [(k, v)]
  | (k2, v2) :: t, k, v => if k2 = k then (k, v) :: t else (k2, v2) :: insertA t k v

/-! ### Evidence-id extraction

The sources use re.search with the pattern of a literal "/exploits/"
followed by one or more digits, capturing the digits: the leftmost
occurrence wins and the digit run is maximal. -/

/-- Longest digit run at the head of a character list. -/
def digitRun : List Char → List Char
  | [] => []
  | c :: cs => if c.isDigit then c :: digitRun cs else []

/-- Match the pattern at the start of the character list. -/
def matchExploitsAt (cs : List Char) : Option (List Char) :=
  if "/exploits/".toList.isPrefixOf cs then
    let ds := digitRun (cs.drop 10)
    if ds.isEmpty then none else some ds
  else none

/-- Leftmost match of the pattern anywhere in the character list. -/
def searchExploits : List Char → Option (List Char)
  | [] => none
  | c :: cs =>
    match matchExploitsAt (c :: cs) with
    | some ds => some ds
    | none => searchExploits cs

/-- Embedding of re.search followed by group(1) on the exploit-url pattern. -/
def extractExploitId (s : String) : Option String :=
  (searchExploits s.toList).map fun ds => String.mk ds

/-- Collect evidence ids from a list of JSON url values, left to right.
Python re.search raises TypeError on a non-string argument, so a non-string
element aborts the whole computation (modelled as the error case). -/
def extractIds : List JVal → Except Unit (List String)
  | [] => Except.ok []
  | JVal.jstr s :: rest => do
      let tl ← extractIds rest
      match extractExploitId s with
      | some i => Except.ok (i :: tl)
      | none => Except.ok tl
  | _ :: _ => Except.error ()

/-! ### scripts/aura_update.py lines 55-97: the exploit cache -/

/-- Normalization of one on-disk cache value (load_exploit_cache, lines
68-83): length-3 lists pass through, length-2 legacy lists gain derived
evidence ids (only when the url field is a list, per the isinstance guard),
every other shape becomes the empty triple. -/
def normalizeEntry : JVal → Except Unit JVal
  | JVal.jarr [a, b, c] => Except.ok (JVal.jarr [a, b, c])
  | JVal.jarr [found, urls] =>
      match urls with
      | JVal.jarr us => do
          let ids ← extractIds us
          Except.ok (JVal.jarr [found, JVal.jarr (ids.map JVal.jstr), JVal.jarr us])
      | _ => Except.ok (JVal.jarr [found, JVal.jarr [], urls])
  | JVal.jarr _ => Except.ok (JVal.jarr [JVal.jbool false, JVal.jarr [], JVal.jarr []])
  | _ => Except.ok (JVal.jarr [JVal.jbool false, JVal.jarr [], JVal.jarr []])

/-- Normalize every entry of the parsed cache dictionary in order. -/
def loadEntries : List (String × JVal) → Except Unit (List (String × JVal))
  | [] => Except.ok []
  | (k, v) :: rest => do
      let nv ← normalizeEntry v
      let tl ← loadEntries rest
      Except.ok ((k, nv) :: tl)

/-- Embedding of load_exploit_cache (lines 55-84) applied to the parsed
on-disk document.  A missing or unparsable file yields the empty dictionary
through the same code path as a non-dict top level. -/
def load_exploit_cache : JVal → Except Unit (List (String × JVal))
  | JVal.jobj fields => loadEntries fields
  | _ => Except.ok []

/-- Document written by save_exploit_cache: json.dump writes the in-memory
dictionary verbatim as a JSON object. -/
def save_exploit_cache_doc (cache : List (String × JVal)) : JVal :=
  JVal.jobj cache

/-- Shape predicate: a JSON value that is a 3-element list. -/
def isTriple : JVal → Bool
  | JVal.jarr l => l.length == 3
  | _ => false

/-! ### File-system effects of save_exploit_cache (lines 87-97)

The writer first writes the payload to the tmp path and promotes it with
os.replace (atomic); if anything in that block raises, the except branch
opens the cache file itself and writes into it directly.  Operations are
modelled as a trace, and a crash can interrupt any operation: an
interrupted plain write leaves the destination corrupt, an interrupted
os.replace leaves the destination unchanged (completion is covered by the
later crash points). -/

inductive FsOp where
  | writeTmp
  | replaceTmpOverCache
  | writeCacheDirect
deriving DecidableEq

inductive FileState where
  | absent
  | intact (v : JVal)
  | corrupt

structure DiskState where
  cacheFile : FileState
  tmpFile : FileState

/-- Trace of durable operations performed by save_exploit_cache: the happy
path writes tmp and atomically promotes it; the fallback path (any failure
inside the try block) performs a direct, non-atomic write of the cache
file. -/
def save_exploit_cache_ops (tryOk : Bool) : List FsOp :=
  if tryOk then [FsOp.writeTmp, FsOp.replaceTmpOverCache]
  else [FsOp.writeTmp, FsOp.writeCacheDirect]

def applyOp (payload : JVal) (d : DiskState) : FsOp → DiskState
  | FsOp.writeTmp => ⟨d.cacheFile, FileState.intact payload⟩
  | FsOp.replaceTmpOverCache => ⟨d.tmpFile, FileState.absent⟩
  | FsOp.writeCacheDirect => ⟨FileState.intact payload, d.tmpFile⟩

def crashDuringOp (d : DiskState) : FsOp → DiskState
  | FsOp.writeTmp => ⟨d.cacheFile, FileState.corrupt⟩
  | FsOp.replaceTmpOverCache => d
  | FsOp.writeCacheDirect => ⟨FileState.corrupt, d.tmpFile⟩

def runOps (payload : JVal) (d : DiskState) (ops : List FsOp) : DiskState :=
  ops.foldl (applyOp payload) d

/-- Disk state after completing the first k operations of the trace and
crashing during the next one, if any. -/
def runCrashAt (payload : JVal) (d : DiskState) (ops : List FsOp) (k : Nat) :
    DiskState :=
  match ops.drop k with
  | [] => runOps payload d ops
  | op :: _ => crashDuringOp (runOps payload d (ops.take k)) op

/-! ### Per-identifier exploit lookup (aura_update.py main, lines 242-258)

On a hit the cached value is destructured (re-deriving evidence ids for a
legacy 2-list); the external collector has_exploit_poc runs only on a miss,
and only a miss stores an entry and sets the dirty flag.  Nothing in this
code consults a clock and the stored entries carry no timestamp. -/

/-- Hit-path destructuring of a cached value (lines 244-254).  Iterating a
non-list url field raises TypeError for numbers, booleans and null; a
string iterates as its single characters, none of which can contain the
11-character minimum match, so the id list stays empty; a dict iterates as
its keys. -/
def hitTriple : JVal → Except Unit (JVal × JVal × JVal)
  | JVal.jarr [a, b, c] => Except.ok (a, b, c)
  | JVal.jarr [found, urls] =>
      match urls with
      | JVal.jarr us => (extractIds us).map fun ids =>
          (found, JVal.jarr (ids.map JVal.jstr), JVal.jarr us)
      | JVal.jstr s => Except.ok (found, JVal.jarr [], JVal.jstr s)
      | JVal.jobj fields => (extractIds (fields.map fun kv => JVal.jstr kv.1)).map
          fun ids => (found, JVal.jarr (ids.map JVal.jstr), JVal.jobj fields)
      | _ => Except.error ()
  | JVal.jarr _ => Except.ok (JVal.jbool false, JVal.jarr [], JVal.jarr [])
  | _ => Except.ok (JVal.jbool false, JVal.jarr [], JVal.jarr [])

/-- Embedding of the cache consultation step for one identifier, returning
the triple used by the record, the cache dictionary afterwards, and the
dirty flag (updated_cache). -/
def exploitStep (cache : List (String × JVal)) (cve : String)
    (collector : String → Bool × List String × List String) :
    Except Unit ((JVal × JVal × JVal) × List (String × JVal) × Bool) :=
  match lookupA cache cve with
  | some cached => (hitTriple cached).map fun t => (t, cache, false)
  | none =>
    let r := collector cve
    Except.ok ((JVal.jbool r.1, JVal.jarr (r.2.1.map JVal.jstr),
        JVal.jarr (r.2.2.map JVal.jstr)),
      insertA cache cve (JVal.jarr [JVal.jbool r.1, JVal.jarr (r.2.1.map JVal.jstr),
        JVal.jarr (r.2.2.map JVal.jstr)]), true)

/-- Embedding of cache_is_valid (scripts/nvd.py lines 86-91): the NVD
response cache file is valid when it exists and its modification time is
younger than the 7-day TTL. -/
def cache_is_valid (pathExists : Bool) (now mtime : ℚ) : Bool :=
  pathExists && decide ((now - mtime) / 86400 < 7)

/-! ### Output documents (aura_update.py main, lines 355-374) -/

/-- The public feed document aura_scores.json (lines 355-361), with the
summary strings and the top records. -/
structure OutDoc where
  last_run : String
  daily_analyst_summary : String
  daily_ciso_summary : String
  cves : List ScoredRecord
deriving DecidableEq

/-- The master document aura_master.json as written on line 372: the run
date and the full record list, nothing else. -/
structure MasterDoc where
  date : String
  records : List ScoredRecord
deriving DecidableEq

/-- Durable output state: the public feed file, the master file, and the
per-date history snapshot files. -/
structure Store where
  scoresFile : Option OutDoc
  masterFile : Option MasterDoc
  historyFiles : List (String × List ScoredRecord)
deriving DecidableEq

/-- Embedding of the output writes (lines 367-374): the feed and master
files are overwritten wholesale and the snapshot file for today is written
(replacing a previous snapshot of the same date). -/
def commitRun (st : Store) (today : String) (doc : OutDoc)
    (records : List ScoredRecord) : Store :=
  ⟨some doc, some ⟨today, records⟩, insertA st.historyFiles today records⟩

/-! ### scripts/kev.py -/

/-- One KEV feed item: the cveID string and the parsed dateAdded (days; the
none case models a dateAdded string strptime rejects, which the loop
skips). -/
structure KevVuln where
  cveID : String
  dateAdded : Option Int
deriving DecidableEq

/-- Embedding of the anchored year pattern match on a cveID: literal CVE-,
four digits, a dash and at least one more digit; returns the year. -/
def cveYear (s : String) : Option Nat :=
  match s.toList with
  | 'C' :: 'V' :: 'E' :: '-' :: a :: b :: c :: d :: '-' :: e :: _ =>
    if a.isDigit && b.isDigit && c.isDigit && d.isDigit && e.isDigit then
      some ((a.toNat - 48) * 1000 + (b.toNat - 48) * 100 +
        (c.toNat - 48) * 10 + (d.toNat - 48))
    else none
  | _ => none

/-- Embedding of fetch_top_kev_cves (scripts/kev.py lines 9-55).  The
network outcome is the resp argument; the crucial behaviour is that a
failed fetch is caught inside the function and yields the empty list, it
never raises to the caller.  On success the feed is filtered to year 2023
or later and dateAdded within the last 540 days, sorted newest first, and
truncated to the limit. -/
def fetch_top_kev_cves (resp : Except Unit (List KevVuln)) (now : Int)
    (limit : Nat) : List String :=
  match resp with
  | Except.error _ => []
  | Except.ok vulns =>
    if vulns.isEmpty then []
    else
      let cutoff := now - 540
      let recent := vulns.filterMap fun v =>
        match cveYear v.cveID, v.dateAdded with
        | some y, some d => if 2023 ≤ y ∧ cutoff ≤ d then some (v.cveID, d) else none
        | _, _ => none
      ((sortDescBy (fun p => p.2) recent).take limit).map Prod.fst

/-- Control flow of main (aura_update.py lines 218-380) from the KEV fetch
to the output writes, with per-identifier enrichment abstracted as an
oracle from identifier to composite score.  The try block around the fetch
only aborts when fetch_top_kev_cves raises, which it never does; the run
then ranks the records and unconditionally writes the three output
documents. -/
def mainRun (resp : Except Unit (List KevVuln)) (now : Int)
    (enrich : String → ℚ) (today last_run analyst ciso : String)
    (st : Store) : Store :=
  let cves := fetch_top_kev_cves resp now 12
  let records := cves.map fun c => (⟨c, enrich c⟩ : ScoredRecord)
  let sorted := sortRecords records
  let top := sorted.take 10
  commitRun st today ⟨last_run, analyst, ciso, top⟩ sorted

/-! ### scripts/context.py -/

/-- Context profile: the keys compute_context_fit reads from context.yaml.
A missing ctx dict (or an empty one) is the none case.  The os and cloud
lists are lowercased by the source and then never used. -/
structure CtxProfile where
  sector : Option String
  os : List String
  cloud : List String
  risk_tolerance : Option String
  internet_exposed : Bool

/-- Python or-defaulting: None and the empty string are falsy. -/
def orDefault (o : Option String) (d : String) : String :=
  match o with
  | none => d
  | some "" => d
  | some s => s

def lowerStr (s : String) : String := String.mk (s.toList.map Char.toLower)

/-- Containment of a character list as a contiguous run of another. -/
def isInfixList (needle : List Char) : List Char → Bool
  | [] => needle.isEmpty
  | c :: t => needle.isPrefixOf (c :: t) || isInfixList needle t

/-- Substring containment, modelling the Python in operator on strings. -/
def containsSub (hay needle : String) : Bool :=
  isInfixList needle.toList hay.toList

/-- Embedding of compute_context_fit (scripts/context.py lines 18-42): a
per-category multiplier dictionary with the six fixed keys, each adjusted
additively and clamped to [0.8, 1.3] with 2-decimal rounding. -/
def compute_context_fit (ctx : Option CtxProfile) : List (String × ℚ) :=
  match ctx with
  | none =>
    [("cvss", 1), ("epss", 1), ("kev", 1), ("exploit", 1), ("trend", 1), ("ai", 1)]
  | some c =>
    let sector := lowerStr (orDefault c.sector "")
    let risk_tol := lowerStr (orDefault c.risk_tolerance "medium")
    let sensitive := containsSub sector "finance" || containsSub sector "health" ||
      containsSub sector "government"
    let cvss0 : ℚ := if sensitive then 1 + 1/10 else 1
    let kev0 : ℚ := if c.internet_exposed then 1 + 1/10 else 1
    let shift : ℚ := if risk_tol = "low" then 1/20
      else if risk_tol = "high" then -(1/20) else 0
    let fin := fun x : ℚ => round2 (max (8/10) (min (13/10) x))
    [("cvss", fin (cvss0 + shift)), ("epss", fin (1 + shift)),
     ("kev", fin (kev0 + shift)), ("exploit", fin (1 + shift)),
     ("trend", fin (1 + shift)), ("ai", fin (1 + shift))]

/-- Embedding of the multiplier selection in main (aura_update.py line
270): the fit_score key of the returned dictionary if present, else 1.0. -/
def ctx_mult_from (ctx_data : List (String × ℚ)) : ℚ :=
  match lookupA ctx_data "fit_score" with
  | some v => v
  | none => 1

/-! ### scripts/ai_context.py

compute_ai_context_score scans a lowercased corpus for a curated keyword
table.  Single-word terms are compiled with word boundaries on both sides
(case-insensitive), multi-word terms as plain case-insensitive substrings;
finditer plus the seen-set counts each distinct matched term once, and
since every pattern is a literal, the count per tier is the number of
distinct terms of that tier occurring in the corpus. -/

def isWordChar (c : Char) : Bool := c.isAlphanum || c == '_'

/-- A word boundary holds at the edge of the corpus or next to a non-word
character. -/
def boundaryOk (oc : Option Char) : Bool :=
  match oc with
  | none => true
  | some c => !(isWordChar c)

/-- Match a term at the head of the remaining corpus with a trailing word
boundary. -/
def matchWordAt (term hay : List Char) : Bool :=
  term.isPrefixOf hay && boundaryOk ((List.drop term.length hay).head?)

/-- Occurrence of a term anywhere in the corpus delimited by word
boundaries on both sides. -/
def searchWordBound (term : List Char) : Option Char → List Char → Bool
  | _, [] => false
  | prev, c :: rest =>
    (boundaryOk prev && matchWordAt term (c :: rest)) || searchWordBound term (some c) rest

/-- One compiled pattern applied to the lowercased corpus, following
_compile_terms: a space in the term selects the plain substring pattern,
otherwise the word-boundary pattern. -/
def termMatches (corpus : List Char) (term : String) : Bool :=
  let t := (lowerStr term).toList
  if t.contains ' ' then isInfixList t corpus
  else searchWordBound t none corpus

/-- The high tier of AI_KEYWORDS (ai_context.py lines 15-29). -/
def aiHigh : List String :=
  ["tensorflow", "pytorch", "jax", "onnx", "openvino", "triton inference",
   "transformers", "langchain", "llama", "gpt", "mistral", "sdxl",
   "openai", "anthropic", "google vertex ai", "vertex ai", "amazon bedrock",
   "bedrock", "cohere",
   "ray serve", "ray", "bentoml", "seldon", "mlflow", "kubeflow", "triton server",
   "pinecone", "weaviate", "milvus", "qdrant", "chromadb",
   "ollama", "vllm", "ludwig", "deepspeed", "accelerate", "vectra",
   "hugging face", "huggingface", "stability ai"]

/-- The medium tier of AI_KEYWORDS (lines 30-35). -/
def aiMedium : List String :=
  ["scikit-learn", "xgboost", "lightgbm", "catboost",
   "airflow", "feast", "dvc", "weights & biases", "wandb",
   "modal", "replicate",
   "autogen", "crew ai", "crewai"]

/-- The low tier of AI_KEYWORDS (lines 36-39). -/
def aiLow : List String :=
  ["notebook", "jupyter", "gpu", "cuda", "tensorrt", "nccL", "rocM",
   "rag", "embedding", "vector search", "prompt", "llm", "agent"]

/-- Distinct matched terms per tier (the seen-set deduplicates by matched
text, which for literal patterns is the term itself; no term repeats
across tiers). -/
def aiMatchCounts (corpus : List Char) : Nat × Nat × Nat :=
  ((aiHigh.filter (termMatches corpus)).length,
   (aiMedium.filter (termMatches corpus)).length,
   (aiLow.filter (termMatches corpus)).length)

/-- The lowercased corpus of compute_ai_context_score (line 71-73): vendor,
product, description, joined references and joined cpes, space-joined. -/
def aiCorpus (vendor product description : String)
    (references cpes : List String) : List Char :=
  (lowerStr (String.intercalate " " [vendor, product, description,
    String.intercalate " " references, String.intercalate " " cpes])).toList

/-- Embedding of compute_ai_context_score (ai_context.py lines 58-106),
returning the score component (the breakdown only repackages the counts):
min(1, high*0.5 + medium*0.25 + low*0.1). -/
def compute_ai_context_score (vendor product description : String)
    (references cpes : List String) : ℚ :=
  let counts := aiMatchCounts (aiCorpus vendor product description references cpes)
  min 1 ((counts.1 : ℚ) * (1/2) + (counts.2.1 : ℚ) * (1/4) + (counts.2.2 : ℚ) * (1/10))

/-! ### scripts/ai_summary.py

summarize_cve embeds the context profile in the user prompt it sends to
the external summarization service (lines 19-22 and 38-43), so the
returned summary text is a function of a ctx-dependent request.  Without a
client it returns a fixed ctx-independent fallback (lines 15-17). -/

/-- The user prompt summarize_cve sends for the analyst summary, including
the ctx_desc block built from the profile (sector, risk tolerance and the
joined cloud-then-os list). -/
def summarize_user_prompt (cve_id vendor product description : String)
    (ctx : Option CtxProfile) : String :=
  let ctx_desc := match ctx with
    | none => ""
    | some c => "Environment: " ++ c.sector.getD "" ++ " sector, "
        ++ c.risk_tolerance.getD "" ++ " tolerance, "
        ++ String.intercalate ", " (c.cloud ++ c.os)
  "Summarize " ++ cve_id ++ " affecting " ++ vendor ++ " " ++ product
    ++ ". Description: " ++ description ++ ". " ++ ctx_desc

/-- The fallback summary when no summarization client exists (ai_summary.py
line 16): it ignores the context profile and the description. -/
def summarize_cve_no_client (cve_id vendor product : String) : String :=
  cve_id ++ " affects " ++ vendor ++ " " ++ product ++ "."

/-! ### Per-record scoring pipeline (aura_update.py main, lines 269-292)

The context profile enters the record score twice: through
compute_context_fit (the multiplier channel, line 270) and through
summarize_cve, whose analyst summary is embedded in the description handed
to compute_ai_context_score (lines 271-279), which feeds compute_aura_score
(lines 284-292).  The external summarization service is the summarizer
oracle: a function from the request prompt to the returned analyst text. -/

/-- Record score with the summarizer active: cvss, epss and trend are the
collector outcomes, kev is always true, and ai_context is computed from
vendor, product and the description-plus-analyst-summary corpus with empty
references and cpes, exactly as in main. -/
def enrichScore (cve vendor product : String) (cvss epss trend : ℚ)
    (exploit : Bool) (ctx : Option CtxProfile)
    (summarizer : String → String) : ℚ :=
  let desc := vendor ++ " " ++ product
  let analyst := summarizer (summarize_user_prompt cve vendor product desc ctx)
  let ai := compute_ai_context_score vendor product (desc ++ " " ++ analyst) [] []
  compute_aura_score cvss epss true (ctx_mult_from (compute_context_fit ctx))
    trend exploit ai

/-- Record score with the summarizer inactive: the analyst summary is the
fixed fallback string. -/
def enrichScoreNoClient (cve vendor product : String) (cvss epss trend : ℚ)
    (exploit : Bool) (ctx : Option CtxProfile) : ℚ :=
  let desc := vendor ++ " " ++ product
  let analyst := summarize_cve_no_client cve vendor product
  let ai := compute_ai_context_score vendor product (desc ++ " " ++ analyst) [] []
  compute_aura_score cvss epss true (ctx_mult_from (compute_context_fit ctx))
    trend exploit ai

/-- A profile differing from the empty one only in the sector. -/
def exampleCtx : Option CtxProfile := some ⟨some "finance", [], [], none, false⟩

/-- The summarization request for the record under the empty profile. -/
def promptNeutral : String :=
  summarize_user_prompt "CVE-2025-0001" "Acme" "Router" "Acme Router" none

/-- The summarization request for the same record under exampleCtx. -/
def promptFinance : String :=
  summarize_user_prompt "CVE-2025-0001" "Acme" "Router" "Acme Router" exampleCtx

/-- A summarizer oracle (one fixed behaviour of the external service): it
answers the finance-profile request with a summary mentioning an AI
framework and every other request with a neutral summary. -/
def exampleSummarizer : String → String := fun s =>
  if s = promptFinance then "Exploitable in tensorflow model-serving deployments."
  else "A buffer overflow in the admin service."

/-! ### Concrete sample values used by the cache claims -/

/-- A well-formed 3-field cache entry for CVE-2024-12345. -/
def sampleEntry3 : JVal :=
  JVal.jarr [JVal.jbool true, JVal.jarr [JVal.jstr "1111"],
    JVal.jarr [JVal.jstr "https://example/exploits/1111"]]

/-- The matching legacy 2-field entry lacking evidence ids. -/
def sampleLegacy2 : JVal :=
  JVal.jarr [JVal.jbool true, JVal.jarr [JVal.jstr "https://example/exploits/1111"]]

/-- An on-disk cache whose legacy entry has a non-string url element. -/
def badRaw : JVal :=
  JVal.jobj [("CVE-BAD", JVal.jarr [JVal.jbool true, JVal.jarr [JVal.jnum 1]])]

/-- A cache holding one entry of arbitrary age for CVE-A. -/
def staleCache : List (String × JVal) :=
  [("CVE-A", JVal.jarr [JVal.jbool false, JVal.jarr [], JVal.jarr []])]

/-- A collector whose answer differs from the cached entry for CVE-A. -/
def freshCollector : String → Bool × List String × List String :=
  fun _ => (true, ["9999"], ["https://www.exploit-db.com/exploits/9999"])

theorem roundHalfEven_intCast (n : ℤ) : roundHalfEven (n : ℚ) = n := by
  unfold roundHalfEven
  simp [Int.floor_intCast]

theorem roundHalfEven_nonneg (q : ℚ) (h : 0 ≤ q) : 0 ≤ roundHalfEven q := by
  unfold roundHalfEven
  have hf : (0 : ℤ) ≤ ⌊q⌋ := Int.floor_nonneg.mpr h
  dsimp only
  split
  · exact hf
  · split
    · omega
    · split <;> omega

theorem roundHalfEven_le_int (q : ℚ) (n : ℤ) (h : q ≤ n) : roundHalfEven q ≤ n := by
  unfold roundHalfEven
  have hf : ⌊q⌋ ≤ n := by
    calc ⌊q⌋ ≤ ⌊(n : ℚ)⌋ := Int.floor_le_floor h
    _ = n := Int.floor_intCast n
  have hfl : (⌊q⌋ : ℚ) ≤ q := Int.floor_le q
  dsimp only
  split
  · exact hf
  · rename_i h1
    have hlt : ⌊q⌋ < n := by
      by_contra hc
      push_neg at hc
      have : (n : ℚ) ≤ (⌊q⌋ : ℚ) := by exact_mod_cast hc
      have h0 : q - (⌊q⌋ : ℚ) ≤ 0 := by linarith
      linarith
    split
    · omega
    · split <;> omega

theorem round1_nonneg (q : ℚ) (h : 0 ≤ q) : 0 ≤ round1 q := by
  unfold round1
  have h1 : (0 : ℤ) ≤ roundHalfEven (10 * q) := roundHalfEven_nonneg _ (by linarith)
  have h2 : (0 : ℚ) ≤ (roundHalfEven (10 * q) : ℚ) := by exact_mod_cast h1
  positivity

theorem round1_le_int (q : ℚ) (n : ℤ) (h : q ≤ (n : ℚ)) : round1 q ≤ (n : ℚ) := by
  unfold round1
  have h1 : roundHalfEven (10 * q) ≤ 10 * n := by
    apply roundHalfEven_le_int
    push_cast
    linarith
  have h2 : (roundHalfEven (10 * q) : ℚ) ≤ ((10 * n : ℤ) : ℚ) := by exact_mod_cast h1
  push_cast at h2
  linarith

theorem round1_intCast (n : ℤ) : round1 (n : ℚ) = (n : ℚ) := by
  unfold round1
  have : (10 : ℚ) * (n : ℚ) = ((10 * n : ℤ) : ℚ) := by push_cast; ring
  rw [this, roundHalfEven_intCast]
  push_cast
  ring

theorem clamp01_bounds (x : ℚ) : 0 ≤ min (max x 0) 1 ∧ min (max x 0) 1 ≤ 1 :=
  ⟨le_min (le_max_right x 0) zero_le_one, min_le_right _ _⟩

theorem bool_ind_bounds (b : Bool) :
    0 ≤ (if b then (1 : ℚ) else 0) ∧ (if b then (1 : ℚ) else 0) ≤ 1 := by
  cases b <;> norm_num

theorem weighted_core_bounds (A B K E T I ctx : ℚ)
    (hA : 0 ≤ A) (hA' : A ≤ 1) (hB : 0 ≤ B) (hB' : B ≤ 1)
    (hK : 0 ≤ K) (hK' : K ≤ 1) (hE : 0 ≤ E) (hE' : E ≤ 1)
    (hT : 0 ≤ T) (hT' : T ≤ 1) (hI : 0 ≤ I) (hI' : I ≤ 1)
    (hc0 : 0 ≤ ctx) (hc1 : ctx ≤ 13/10) :
    0 ≤ (A*(4/10) + B*(2/10) + K*(2/10) + E*(1/10) + T*(5/100) + I*(5/100)) * ctx * 100 ∧
      (A*(4/10) + B*(2/10) + K*(2/10) + E*(1/10) + T*(5/100) + I*(5/100)) * ctx * 100 ≤ 130 := by
  have hsum0 : 0 ≤ A*(4/10) + B*(2/10) + K*(2/10) + E*(1/10) + T*(5/100) + I*(5/100) := by
    linarith
  have hsum1 : A*(4/10) + B*(2/10) + K*(2/10) + E*(1/10) + T*(5/100) + I*(5/100) ≤ 1 := by
    linarith
  have h1 : 0 ≤ (A*(4/10) + B*(2/10) + K*(2/10) + E*(1/10) + T*(5/100) + I*(5/100)) * ctx :=
    mul_nonneg hsum0 hc0
  have h2 : (A*(4/10) + B*(2/10) + K*(2/10) + E*(1/10) + T*(5/100) + I*(5/100)) * ctx ≤ 13/10 := by
    calc (A*(4/10) + B*(2/10) + K*(2/10) + E*(1/10) + T*(5/100) + I*(5/100)) * ctx
        ≤ 1 * (13/10) := mul_le_mul hsum1 hc1 hc0 (by norm_num)
    _ = 13/10 := by ring
  constructor
  · linarith
  · linarith

/-- C1 counterexample: with all raw signals at the top of their claimed ranges
(cvss 10, epss 1, kev and exploit set, trend 1, ai 1) and the context
multiplier at its claimed maximum 1.3, compute_aura_score returns 130.0,
which exceeds the claimed upper bound of 100.0: the code applies no final
clamp after the context multiplier. -/
theorem aura_score_exceeds_100_at_max_signals :
    compute_aura_score 10 1 true (13/10) 1 true 1 = 130 ∧
      ¬ compute_aura_score 10 1 true (13/10) 1 true 1 ≤ 100 := by
  constructor
  · norm_num [compute_aura_score, cvssNorm, round1, roundHalfEven]
  · norm_num [compute_aura_score, cvssNorm, round1, roundHalfEven]

/-- C1 (amended): for raw signals in their normalized ranges and a context
multiplier in [0.8, 1.3], compute_aura_score lies in [0.0, 130.0]; the score
is bounded by 100 times the context multiplier, not by 100, because the code
multiplies the weighted sum (at most 1) by ctx_mult before scaling. -/
theorem aura_score_range_zero_to_130
    (cvss epss trend ai ctx : ℚ) (kev ep : Bool)
    (h1 : 0 ≤ cvss) (h2 : cvss ≤ 10) (h3 : 0 ≤ epss) (h4 : epss ≤ 1)
    (h5 : 0 ≤ trend) (h6 : trend ≤ 1) (h7 : 0 ≤ ai) (h8 : ai ≤ 1)
    (h9 : 4/5 ≤ ctx) (h10 : ctx ≤ 13/10) :
    0 ≤ compute_aura_score cvss epss kev ctx trend ep ai ∧
      compute_aura_score cvss epss kev ctx trend ep ai ≤ 130 := by
  simp only [compute_aura_score, cvssNorm]
  obtain ⟨hA, hA'⟩ := clamp01_bounds (cvss / 10)
  obtain ⟨hB, hB'⟩ := clamp01_bounds epss
  obtain ⟨hT, hT'⟩ := clamp01_bounds trend
  obtain ⟨hI, hI'⟩ := clamp01_bounds ai
  obtain ⟨hK, hK'⟩ := bool_ind_bounds kev
  obtain ⟨hE, hE'⟩ := bool_ind_bounds ep
  have hc0 : (0 : ℚ) ≤ ctx := by linarith
  obtain ⟨hs0, hs1⟩ := weighted_core_bounds _ _ _ _ _ _ ctx
    hA hA' hB hB' hK hK' hE hE' hT hT' hI hI' hc0 h10
  constructor
  · exact round1_nonneg _ hs0
  · have h := round1_le_int _ 130 (by exact_mod_cast hs1)
    exact_mod_cast h

/-- C1 witness: a concrete instantiation of the amended range theorem. -/
theorem aura_score_range_zero_to_130_witness :
    0 ≤ compute_aura_score 5 (1/2) true 1 (1/4) false (1/10) ∧
      compute_aura_score 5 (1/2) true 1 (1/4) false (1/10) ≤ 130 :=
  aura_score_range_zero_to_130 5 (1/2) (1/4) (1/10) 1 true false
    (by norm_num) (by norm_num) (by norm_num) (by norm_num) (by norm_num)
    (by norm_num) (by norm_num) (by norm_num) (by norm_num) (by norm_num)

/-- C9 counterexample: the severity 20 is out of range, yet it normalizes to
1.0, not to 0 as the claim states for out-of-range input; the code clamps
high out-of-range severities to 1 rather than mapping them to 0. -/
theorem severity_above_ten_normalizes_to_one :
    cvssNorm 20 = 1 ∧ cvssNorm 20 ≠ 0 := by
  constructor
  · norm_num [cvssNorm]
  · norm_num [cvssNorm]

/-- C9 (amended): normalized severity equals clamp(s/10, 0, 1); in particular
s = 10 gives 1.0 and the invalid s = -1 gives 0.0.  A missing severity
(default 0.0) normalizes to 0, severities at or below 0 normalize to 0, and
severities at or above 10 clamp to 1 (not 0); no input raises an error. -/
theorem severity_normalization_clamp (s : ℚ) :
    cvssNorm s = min (max (s / 10) 0) 1
    ∧ (s ≤ 0 → cvssNorm s = 0)
    ∧ (10 ≤ s → cvssNorm s = 1)
    ∧ cvssNorm 10 = 1 ∧ cvssNorm (-1) = 0 ∧ cvssNorm 0 = 0 := by
  refine ⟨rfl, ?_, ?_, by norm_num [cvssNorm], by norm_num [cvssNorm],
    by norm_num [cvssNorm]⟩
  · intro h
    unfold cvssNorm
    have hx : s / 10 ≤ 0 := by linarith
    rw [max_eq_right hx, min_eq_left (by norm_num : (0:ℚ) ≤ 1)]
  · intro h
    unfold cvssNorm
    have hx : (1 : ℚ) ≤ s / 10 := by linarith
    have hx2 : (1 : ℚ) ≤ max (s / 10) 0 := le_trans hx (le_max_left _ _)
    rw [min_eq_right hx2]

/-- C9 witness: a concrete instantiation of the amended normalization
theorem, discharging both implications. -/
theorem severity_normalization_clamp_witness :
    cvssNorm (-5) = 0 ∧ cvssNorm 37 = 1 :=
  ⟨(severity_normalization_clamp (-5)).2.1 (by norm_num),
   (severity_normalization_clamp 37).2.2.1 (by norm_num)⟩

theorem insertDescBy_perm {α β : Type} [LinearOrder β] (key : α → β) (x : α)
    (l : List α) : (insertDescBy key x l).Perm (x :: l) := by
  induction l with
  | nil => exact List.Perm.refl _
  | cons y ys ih =>
    unfold insertDescBy
    split
    · exact List.Perm.refl _
    · exact List.Perm.trans (ih.cons y) (List.Perm.swap x y ys)

theorem insertDescBy_pairwise {α β : Type} [LinearOrder β] (key : α → β) (x : α)
    (l : List α) (h : l.Pairwise (fun a b => key b ≤ key a)) :
    (insertDescBy key x l).Pairwise (fun a b => key b ≤ key a) := by
  induction l with
  | nil => simp [insertDescBy]
  | cons y ys ih =>
    rw [List.pairwise_cons] at h
    unfold insertDescBy
    split
    · rename_i hxy
      rw [List.pairwise_cons]
      refine ⟨?_, List.pairwise_cons.mpr h⟩
      intro z hz
      rcases List.mem_cons.mp hz with hz | hz
      · subst hz; exact hxy
      · exact le_trans (h.1 z hz) hxy
    · rename_i hxy
      have hyx : key y ≤ key x → False := hxy
      rw [List.pairwise_cons]
      refine ⟨?_, ih h.2⟩
      intro z hz
      have hz2 : z ∈ x :: ys := (insertDescBy_perm key x ys).mem_iff.mp hz
      rcases List.mem_cons.mp hz2 with hz2 | hz2
      · subst hz2
        exact le_of_lt (lt_of_not_le hxy)
      · exact h.1 z hz2

theorem insertDescBy_filter {α β : Type} [LinearOrder β] (key : α → β) (v : β)
    (x : α) (l : List α) :
    (insertDescBy key x l).filter (fun a => decide (key a = v)) =
      if key x = v then x :: l.filter (fun a => decide (key a = v))
      else l.filter (fun a => decide (key a = v)) := by
  induction l with
  | nil =>
    by_cases hx : key x = v <;> simp [insertDescBy, List.filter, hx]
  | cons y ys ih =>
    unfold insertDescBy
    split
    · by_cases hx : key x = v <;> by_cases hy : key y = v <;>
        simp [List.filter_cons, hx, hy]
    · rename_i hxy
      by_cases hx : key x = v
      · have hy : ¬ key y = v := by
          intro hy
          exact hxy (le_of_eq (hy.trans hx.symm))
        simp [List.filter_cons, hx, hy, ih]
      · simp [List.filter_cons, hx, ih]

theorem sortDescBy_perm {α β : Type} [LinearOrder β] (key : α → β)
    (l : List α) : (sortDescBy key l).Perm l := by
  induction l with
  | nil => exact List.Perm.refl _
  | cons x xs ih =>
    exact List.Perm.trans (insertDescBy_perm key x (sortDescBy key xs)) (ih.cons x)

theorem sortDescBy_pairwise {α β : Type} [LinearOrder β] (key : α → β)
    (l : List α) : (sortDescBy key l).Pairwise (fun a b => key b ≤ key a) := by
  induction l with
  | nil => simp [sortDescBy]
  | cons x xs ih => exact insertDescBy_pairwise key x _ ih

theorem sortDescBy_filter {α β : Type} [LinearOrder β] (key : α → β)
    (l : List α) (v : β) :
    (sortDescBy key l).filter (fun a => decide (key a = v)) =
      l.filter (fun a => decide (key a = v)) := by
  induction l with
  | nil => rfl
  | cons x xs ih =>
    show (insertDescBy key x (sortDescBy key xs)).filter _ = _
    rw [insertDescBy_filter key v x (sortDescBy key xs), List.filter_cons]
    by_cases hx : key x = v <;> simp [hx, ih]

/-- C4 counterexample: for records A = (CVE-A, 50.0), C = (CVE-C, 80.0),
B = (CVE-B, 80.0) presented in the input order [A, C, B], the ranking
returns [C, B, A]: the two tied records keep their input order because the
sort key is the score alone, so the claimed identifier-ascending tie-break
output [B, C, A] is not produced even though CVE-B is smaller than CVE-C. -/
theorem ranking_tie_order_counterexample :
    sortRecords [⟨"CVE-A", 50⟩, ⟨"CVE-C", 80⟩, ⟨"CVE-B", 80⟩] =
      [⟨"CVE-C", 80⟩, ⟨"CVE-B", 80⟩, ⟨"CVE-A", 50⟩]
    ∧ "CVE-B" < "CVE-C"
    ∧ sortRecords [⟨"CVE-A", 50⟩, ⟨"CVE-C", 80⟩, ⟨"CVE-B", 80⟩] ≠
      [⟨"CVE-B", 80⟩, ⟨"CVE-C", 80⟩, ⟨"CVE-A", 50⟩] := by
  refine ⟨by decide, ?_, by decide⟩
  · rw [String.lt_iff_toList_lt]
    decide

/-- C4 (amended): ranking stably sorts by composite score descending with
ties keeping their input order (no identifier tie-break): the output is a
permutation of the input, is pairwise descending on scores, and for every
score value the records carrying it appear in their original order. -/
theorem ranking_stable_desc_by_score (l : List ScoredRecord) :
    (sortRecords l).Perm l
    ∧ (sortRecords l).Pairwise (fun a b => b.aura_score ≤ a.aura_score)
    ∧ ∀ v : ℚ, (sortRecords l).filter (fun r => decide (r.aura_score = v)) =
        l.filter (fun r => decide (r.aura_score = v)) :=
  ⟨sortDescBy_perm _ l, sortDescBy_pairwise _ l, fun v => sortDescBy_filter _ l v⟩

theorem lookupA_insertA {α : Type} (l : List (String × α)) (k : String) (v : α)
    (key : String) :
    lookupA (insertA l k v) key = if k = key then some v else lookupA l key := by
  induction l with
  | nil => simp [insertA, lookupA]
  | cons p t ih =>
    obtain ⟨k2, v2⟩ := p
    by_cases h2 : k2 = k
    · subst h2
      by_cases h3 : k2 = key <;> simp [insertA, lookupA, h3]
    · by_cases h3 : k2 = key
      · subst h3
        have hk : ¬ k = k2 := fun h => h2 h.symm
        simp [insertA, lookupA, h2, hk]
      · simp [insertA, lookupA, h2, h3, ih]

theorem insertA_idem {α : Type} (l : List (String × α)) (k : String) (v : α) :
    insertA (insertA l k v) k v = insertA l k v := by
  induction l with
  | nil => simp [insertA]
  | cons p t ih =>
    obtain ⟨k2, v2⟩ := p
    by_cases h2 : k2 = k
    · subst h2
      simp [insertA]
    · simp [insertA, h2, ih]

theorem normalizeEntry_ok_isTriple (v w : JVal)
    (h : normalizeEntry v = Except.ok w) : isTriple w = true := by
  unfold normalizeEntry at h
  split at h
  · cases Except.ok.inj h
    rfl
  · rename_i found urls
    split at h
    · rename_i us
      cases hx : extractIds us with
      | error e =>
        rw [hx] at h
        replace h : (Except.error e : Except Unit JVal) = Except.ok w := h
        exact Except.noConfusion h
      | ok ids =>
        rw [hx] at h
        replace h : Except.ok (JVal.jarr [found, JVal.jarr (ids.map JVal.jstr),
          JVal.jarr us]) = Except.ok w := h
        cases Except.ok.inj h
        rfl
    · cases Except.ok.inj h
      rfl
  · cases Except.ok.inj h
    rfl
  · cases Except.ok.inj h
    rfl

theorem normalizeEntry_triple_id (v : JVal) (h : isTriple v = true) :
    normalizeEntry v = Except.ok v := by
  cases v with
  | jarr l =>
    rcases l with _ | ⟨a, _ | ⟨b, _ | ⟨c, _ | ⟨d, t⟩⟩⟩⟩ <;> simp [isTriple] at h
    rfl
  | jnull => simp [isTriple] at h
  | jbool b => simp [isTriple] at h
  | jnum n => simp [isTriple] at h
  | jstr s => simp [isTriple] at h
  | jobj f => simp [isTriple] at h

theorem loadEntries_ok_triples (fields : List (String × JVal))
    (m : List (String × JVal)) (h : loadEntries fields = Except.ok m) :
    ∀ k v, lookupA m k = some v → isTriple v = true := by
  induction fields generalizing m with
  | nil =>
    simp only [loadEntries, Except.ok.injEq] at h
    subst h
    intro k v hk
    simp [lookupA] at hk
  | cons p rest ih =>
    obtain ⟨k0, v0⟩ := p
    unfold loadEntries at h
    cases h1 : normalizeEntry v0 with
    | error e =>
      rw [h1] at h
      replace h : (Except.error e : Except Unit (List (String × JVal))) =
        Except.ok m := h
      exact Except.noConfusion h
    | ok nv =>
      rw [h1] at h
      cases h2 : loadEntries rest with
      | error e =>
        rw [h2] at h
        replace h : (Except.error e : Except Unit (List (String × JVal))) =
          Except.ok m := h
        exact Except.noConfusion h
      | ok tl =>
        rw [h2] at h
        replace h : Except.ok ((k0, nv) :: tl) = Except.ok m := h
        cases Except.ok.inj h
        intro k v hk
        simp only [lookupA] at hk
        by_cases hkey : k0 = k
        · rw [if_pos hkey] at hk
          cases hk
          exact normalizeEntry_ok_isTriple v0 nv h1
        · rw [if_neg hkey] at hk
          exact ih tl h2 k v hk

theorem loadEntries_triples_id (fields : List (String × JVal))
    (h : ∀ p ∈ fields, isTriple p.2 = true) :
    loadEntries fields = Except.ok fields := by
  induction fields with
  | nil => rfl
  | cons p rest ih =>
    obtain ⟨k0, v0⟩ := p
    have h0 : isTriple v0 = true := h (k0, v0) (List.mem_cons_self _ _)
    have hr : loadEntries rest = Except.ok rest :=
      ih fun q hq => h q (List.mem_cons_of_mem _ hq)
    unfold loadEntries
    rw [normalizeEntry_triple_id v0 h0, hr]
    rfl

/-- C7: saving then loading the exploit cache is the identity on caches of
well-formed 3-field entries; the concrete 3-field entry for CVE-2024-12345
reads back identical, and the legacy 2-field entry with the same url loads
as that same 3-field entry, the evidence id 1111 being extracted from the
digits after the /exploits/ url segment. -/
theorem cache_round_trip_and_legacy_upgrade :
    (∀ cache : List (String × JVal), (∀ p ∈ cache, isTriple p.2 = true) →
      load_exploit_cache (save_exploit_cache_doc cache) = Except.ok cache)
    ∧ load_exploit_cache (save_exploit_cache_doc [("CVE-2024-12345", sampleEntry3)]) =
        Except.ok [("CVE-2024-12345", sampleEntry3)]
    ∧ load_exploit_cache (JVal.jobj [("CVE-2024-12345", sampleLegacy2)]) =
        Except.ok [("CVE-2024-12345", sampleEntry3)] :=
  ⟨fun cache h => loadEntries_triples_id cache h, rfl, rfl⟩

/-- C7 witness: the round-trip identity applied to a concrete one-entry
cache of a well-formed triple. -/
theorem cache_round_trip_and_legacy_upgrade_witness :
    load_exploit_cache (save_exploit_cache_doc staleCache) = Except.ok staleCache :=
  cache_round_trip_and_legacy_upgrade.1 staleCache (by decide)

/-- C10 counterexample: an on-disk cache whose legacy 2-field entry holds a
url list containing the number 1 makes load_exploit_cache raise TypeError
(re.search on a non-string) instead of mapping the shape to a 3-element
list or an empty cache, so the load is not total on all on-disk shapes. -/
theorem load_cache_raises_on_nonstring_url :
    load_exploit_cache badRaw = Except.error ()
    ∧ ∀ m : List (String × JVal), load_exploit_cache badRaw ≠ Except.ok m := by
  refine ⟨rfl, ?_⟩
  intro m h
  exact Except.noConfusion
    ((rfl : load_exploit_cache badRaw = Except.error ()).symm.trans h)

/-- C10 (amended): whenever load_exploit_cache returns a cache (which it
does for every shape except a legacy 2-field entry whose url list contains
a non-string, where it raises), every value of that cache is a 3-element
list, and the per-identifier lookup step preserves this invariant: the only
entry stored during a run is a fresh 3-element list. -/
theorem cache_values_always_triples :
    (∀ raw m, load_exploit_cache raw = Except.ok m →
      ∀ k v, lookupA m k = some v → isTriple v = true)
    ∧ (∀ cache cve collector t nc dirty,
      (∀ k v, lookupA cache k = some v → isTriple v = true) →
      exploitStep cache cve collector = Except.ok (t, nc, dirty) →
      ∀ k v, lookupA nc k = some v → isTriple v = true) := by
  constructor
  · intro raw m h
    cases raw with
    | jobj fields => exact loadEntries_ok_triples fields m h
    | jnull =>
      simp only [load_exploit_cache, Except.ok.injEq] at h
      subst h; intro k v hk; simp [lookupA] at hk
    | jbool b =>
      simp only [load_exploit_cache, Except.ok.injEq] at h
      subst h; intro k v hk; simp [lookupA] at hk
    | jnum n =>
      simp only [load_exploit_cache, Except.ok.injEq] at h
      subst h; intro k v hk; simp [lookupA] at hk
    | jstr s =>
      simp only [load_exploit_cache, Except.ok.injEq] at h
      subst h; intro k v hk; simp [lookupA] at hk
    | jarr els =>
      simp only [load_exploit_cache, Except.ok.injEq] at h
      subst h; intro k v hk; simp [lookupA] at hk
  · intro cache cve collector t nc dirty hcache h
    cases hl : lookupA cache cve with
    | some cached =>
      have he : exploitStep cache cve collector =
          (hitTriple cached).map fun triple => (triple, cache, false) := by
        unfold exploitStep
        rw [hl]
      rw [he] at h
      cases ht : hitTriple cached with
      | error e =>
        rw [ht] at h
        replace h : (Except.error e :
            Except Unit ((JVal × JVal × JVal) × List (String × JVal) × Bool)) =
          Except.ok (t, nc, dirty) := h
        exact Except.noConfusion h
      | ok t0 =>
        rw [ht] at h
        replace h : Except.ok (t0, cache, false) = Except.ok (t, nc, dirty) := h
        have hnc : cache = nc := congrArg (fun p => p.2.1) (Except.ok.inj h)
        intro k v hk
        rw [← hnc] at hk
        exact hcache k v hk
    | none =>
      have he : exploitStep cache cve collector = Except.ok
          ((JVal.jbool (collector cve).1,
            JVal.jarr ((collector cve).2.1.map JVal.jstr),
            JVal.jarr ((collector cve).2.2.map JVal.jstr)),
           insertA cache cve (JVal.jarr [JVal.jbool (collector cve).1,
             JVal.jarr ((collector cve).2.1.map JVal.jstr),
             JVal.jarr ((collector cve).2.2.map JVal.jstr)]), true) := by
        unfold exploitStep
        rw [hl]
      rw [he] at h
      have hnc : insertA cache cve (JVal.jarr [JVal.jbool (collector cve).1,
          JVal.jarr ((collector cve).2.1.map JVal.jstr),
          JVal.jarr ((collector cve).2.2.map JVal.jstr)]) = nc :=
        congrArg (fun p => p.2.1) (Except.ok.inj h)
      intro k v hk
      rw [← hnc, lookupA_insertA] at hk
      by_cases hkey : cve = k
      · rw [if_pos hkey] at hk
        cases hk
        rfl
      · rw [if_neg hkey] at hk
        exact hcache k v hk

/-- C10 witness: the load invariant applied to a concrete one-entry cache,
establishing that its stored value is a triple. -/
theorem cache_values_always_triples_witness : isTriple sampleEntry3 = true :=
  cache_values_always_triples.1 (JVal.jobj [("CVE-2024-12345", sampleEntry3)])
    [("CVE-2024-12345", sampleEntry3)] rfl "CVE-2024-12345" sampleEntry3 rfl

/-- C5 counterexample: the exploit-cache lookup for CVE-A hits the cached
entry and returns it with the dirty flag false and the cache unchanged,
even though a fresh collector call would report an exploit; the lookup step
takes no clock input and the stored entry is a bare 3-field list with no
fetch timestamp, so no entry age can ever trigger the claimed transparent
refresh. -/
theorem exploit_cache_hit_ignores_staleness :
    exploitStep staleCache "CVE-A" freshCollector =
      Except.ok ((JVal.jbool false, JVal.jarr [], JVal.jarr []), staleCache, false)
    ∧ (freshCollector "CVE-A").1 = true
    ∧ lookupA staleCache "CVE-A" =
        some (JVal.jarr [JVal.jbool false, JVal.jarr [], JVal.jarr []]) :=
  ⟨rfl, rfl, rfl⟩

/-- C5 (amended): a lookup that hits the exploit cache returns the stored
entry without calling the external collector regardless of the entry's age
(the result does not depend on the collector at all); a miss invokes the
collector, stores the normalized 3-field entry and sets the dirty flag; the
7-day retention window exists only in the separate NVD response cache,
where validity is decided from the cache file's modification time. -/
theorem exploit_cache_hit_miss_contract :
    (∀ cache cve coll e, lookupA cache cve = some e →
      (∀ coll2, exploitStep cache cve coll2 = exploitStep cache cve coll)
      ∧ exploitStep cache cve coll =
          (hitTriple e).map fun triple => (triple, cache, false))
    ∧ (∀ cache cve coll, lookupA cache cve = none →
      exploitStep cache cve coll = Except.ok
        ((JVal.jbool (coll cve).1, JVal.jarr ((coll cve).2.1.map JVal.jstr),
          JVal.jarr ((coll cve).2.2.map JVal.jstr)),
         insertA cache cve (JVal.jarr [JVal.jbool (coll cve).1,
           JVal.jarr ((coll cve).2.1.map JVal.jstr),
           JVal.jarr ((coll cve).2.2.map JVal.jstr)]), true))
    ∧ (∀ (pathExists : Bool) (now mtime : ℚ),
      cache_is_valid pathExists now mtime = true ↔
        pathExists = true ∧ now - mtime < 7 * 86400) := by
  refine ⟨?_, ?_, ?_⟩
  · intro cache cve coll e h
    have he : ∀ c2 : String → Bool × List String × List String,
        exploitStep cache cve c2 =
          (hitTriple e).map fun triple => (triple, cache, false) := by
      intro c2
      unfold exploitStep
      rw [h]
    exact ⟨fun coll2 => (he coll2).trans (he coll).symm, he coll⟩
  · intro cache cve coll h
    unfold exploitStep
    rw [h]
  · intro pe now mtime
    simp only [cache_is_valid, Bool.and_eq_true, decide_eq_true_eq]
    constructor
    · rintro ⟨hp, hd⟩
      refine ⟨hp, ?_⟩
      have := (div_lt_iff (by norm_num : (0:ℚ) < 86400)).mp hd
      linarith
    · rintro ⟨hp, hd⟩
      refine ⟨hp, ?_⟩
      rw [div_lt_iff (by norm_num : (0:ℚ) < 86400)]
      linarith

/-- C5 witness: on the concrete hit for CVE-A the lookup result is the same
for two different collectors, so the collector is not consulted. -/
theorem exploit_cache_hit_miss_contract_witness :
    exploitStep staleCache "CVE-A" (fun _ => (false, [], [])) =
      exploitStep staleCache "CVE-A" freshCollector :=
  (exploit_cache_hit_miss_contract.1 staleCache "CVE-A" freshCollector
    (JVal.jarr [JVal.jbool false, JVal.jarr [], JVal.jarr []]) rfl).1
    (fun _ => (false, [], []))

/-- C8 counterexample: when the atomic try block fails and the fallback
path runs, a crash during the direct write of the cache file leaves the
durable cache file corrupt, so not every durable cache write is atomically
promoted from a temporary location. -/
theorem save_cache_fallback_write_corruptible :
    (runCrashAt (JVal.jobj []) ⟨FileState.intact (JVal.jobj staleCache), FileState.absent⟩
      (save_exploit_cache_ops false) 1).cacheFile = FileState.corrupt := rfl

/-- C8 (amended): on the normal path the write is all-or-nothing: whatever
the crash point, the durable cache file is either the previous content or
the fully written new payload; but the exception fallback performs a
direct, non-atomic write of the cache file. -/
theorem save_cache_atomic_path_crash_safe (payload : JVal) (d : DiskState) (k : Nat) :
    ((runCrashAt payload d (save_exploit_cache_ops true) k).cacheFile = d.cacheFile
      ∨ (runCrashAt payload d (save_exploit_cache_ops true) k).cacheFile =
          FileState.intact payload)
    ∧ FsOp.writeCacheDirect ∈ save_exploit_cache_ops false := by
  constructor
  · match k with
    | 0 => exact Or.inl rfl
    | 1 => exact Or.inl rfl
    | (n+2) =>
      right
      have hd : List.drop (n+2) (save_exploit_cache_ops true) = [] := by
        simp [save_exploit_cache_ops]
      simp only [runCrashAt, hd]
      rfl
  · simp [save_exploit_cache_ops]

/-- C2 counterexample: starting from a master document holding the record
for CVE-X committed on 2025-01-01, committing the 2025-01-02 run replaces
the master document wholesale with that day's record list: the previously
stored CVE-X point is gone, and the document has no per-identifier history
lists at all, refuting the append-only upsert. -/
theorem commit_overwrites_master_dropping_prior_points :
    (commitRun ⟨none, some ⟨"2025-01-01", [⟨"CVE-X", 70⟩]⟩,
        [("2025-01-01", [⟨"CVE-X", 70⟩])]⟩
      "2025-01-02" ⟨"r", "a", "c", [⟨"CVE-Y", 50⟩]⟩ [⟨"CVE-Y", 50⟩]).masterFile =
      some ⟨"2025-01-02", [⟨"CVE-Y", 50⟩]⟩
    ∧ (⟨"CVE-X", 70⟩ : ScoredRecord) ∉
        (MasterDoc.records ⟨"2025-01-02", [⟨"CVE-Y", 50⟩]⟩) :=
  ⟨rfl, by decide⟩

/-- C2 (amended): committing a run overwrites the master document with the
day's date and full record list (keeping no per-identifier history), writes
the public feed, and upserts the per-date history snapshot file, leaving
snapshots of other dates untouched; committing the same day's records twice
is idempotent, so the snapshot for that date is overwritten and nothing is
duplicated. -/
theorem commit_master_overwrite_and_idempotent
    (st : Store) (today : String) (doc : OutDoc) (records : List ScoredRecord) :
    (commitRun st today doc records).masterFile = some ⟨today, records⟩
    ∧ (commitRun st today doc records).scoresFile = some doc
    ∧ lookupA (commitRun st today doc records).historyFiles today = some records
    ∧ (∀ d, d ≠ today → lookupA (commitRun st today doc records).historyFiles d =
        lookupA st.historyFiles d)
    ∧ commitRun (commitRun st today doc records) today doc records =
        commitRun st today doc records := by
  refine ⟨rfl, rfl, ?_, ?_, ?_⟩
  · show lookupA (insertA st.historyFiles today records) today = some records
    rw [lookupA_insertA, if_pos rfl]
  · intro d hd
    show lookupA (insertA st.historyFiles today records) d = lookupA st.historyFiles d
    rw [lookupA_insertA, if_neg fun h => hd h.symm]
  · show (⟨some doc, some ⟨today, records⟩,
        insertA (insertA st.historyFiles today records) today records⟩ : Store) = _
    rw [insertA_idem]
    rfl

/-- C2 witness: committing on 2025-01-02 leaves the 2025-01-01 snapshot
untouched, instantiating the other-dates clause at a concrete store. -/
theorem commit_master_overwrite_and_idempotent_witness :
    lookupA (commitRun ⟨none, none, [("2025-01-01", [])]⟩ "2025-01-02"
      ⟨"r", "a", "c", []⟩ []).historyFiles "2025-01-01" = some [] :=
  ((commit_master_overwrite_and_idempotent ⟨none, none, [("2025-01-01", [])]⟩
    "2025-01-02" ⟨"r", "a", "c", []⟩ []).2.2.2.1 "2025-01-01" (by decide)).trans rfl

/-- C3: a failed KEV feed fetch does not abort the run: fetch_top_kev_cves
catches the failure internally and returns the empty list, so the abort
branch in main is unreachable for this condition, and the run proceeds to
write all three output documents (public feed, master index, history
snapshot) with empty record content, contradicting the specified
abort-without-writing behaviour. -/
theorem kev_fetch_failure_still_writes_outputs
    (now : Int) (enrich : String → ℚ) (today last_run analyst ciso : String)
    (st : Store) :
    fetch_top_kev_cves (Except.error ()) now 12 = []
    ∧ mainRun (Except.error ()) now enrich today last_run analyst ciso st =
        commitRun st today ⟨last_run, analyst, ciso, []⟩ []
    ∧ (mainRun (Except.error ()) now enrich today last_run analyst ciso st).masterFile =
        some ⟨today, []⟩
    ∧ (mainRun (Except.error ()) now enrich today last_run analyst ciso st).scoresFile =
        some ⟨last_run, analyst, ciso, []⟩
    ∧ lookupA (mainRun (Except.error ()) now enrich today last_run analyst
        ciso st).historyFiles today = some [] := by
  refine ⟨rfl, rfl, rfl, rfl, ?_⟩
  show lookupA (insertA st.historyFiles today []) today = some []
  rw [lookupA_insertA, if_pos rfl]

theorem fit_lookup_none (ctx : Option CtxProfile) :
    lookupA (compute_context_fit ctx) "fit_score" = none := by
  cases ctx with
  | none => rfl
  | some c => simp [compute_context_fit, lookupA]

/-- C6 counterexample: two per-record runs that differ only in the context
profile (empty versus finance sector) produce different composite scores,
52.0 against 54.5, under one fixed behaviour of the external summarization
service: the profile changes the summarize_cve request (the two prompts are
proven distinct), the ctx-dependent summary is embedded in the description
fed to compute_ai_context_score, the mention of an AI framework raises
ai_context from 0 to 0.5, and the score moves with it even though the
context multiplier is 1.0 in both runs. -/
theorem context_profile_changes_score_via_summaries :
    enrichScore "CVE-2025-0001" "Acme" "Router" 8 0 0 false none exampleSummarizer = 52
    ∧ enrichScore "CVE-2025-0001" "Acme" "Router" 8 0 0 false exampleCtx
        exampleSummarizer = 109/2
    ∧ ¬ (52 : ℚ) = 109/2
    ∧ ¬ promptNeutral = promptFinance := by
  have hs0 : exampleSummarizer (summarize_user_prompt "CVE-2025-0001" "Acme"
      "Router" "Acme Router" none) = "A buffer overflow in the admin service." := by
    decide
  have hs1 : exampleSummarizer (summarize_user_prompt "CVE-2025-0001" "Acme"
      "Router" "Acme Router" exampleCtx) =
      "Exploitable in tensorflow model-serving deployments." := by
    decide
  have hc0 : aiMatchCounts (aiCorpus "Acme" "Router"
      ("Acme Router " ++ "A buffer overflow in the admin service.") [] []) =
      (0, 0, 0) := by decide
  have hc1 : aiMatchCounts (aiCorpus "Acme" "Router"
      ("Acme Router " ++ "Exploitable in tensorflow model-serving deployments.") [] []) =
      (1, 0, 0) := by decide
  have hai0 : compute_ai_context_score "Acme" "Router"
      ("Acme Router " ++ "A buffer overflow in the admin service.") [] [] = 0 := by
    simp only [compute_ai_context_score, hc0]
    norm_num
  have hai1 : compute_ai_context_score "Acme" "Router"
      ("Acme Router " ++ "Exploitable in tensorflow model-serving deployments.") [] [] =
      1/2 := by
    simp only [compute_ai_context_score, hc1]
    norm_num
  refine ⟨?_, ?_, by norm_num, by decide⟩
  · show compute_aura_score 8 0 true (ctx_mult_from (compute_context_fit none)) 0 false
      (compute_ai_context_score "Acme" "Router"
        ("Acme Router " ++ exampleSummarizer (summarize_user_prompt "CVE-2025-0001"
          "Acme" "Router" "Acme Router" none)) [] []) = 52
    rw [hs0, hai0, show ctx_mult_from (compute_context_fit none) = 1 from rfl]
    norm_num [compute_aura_score, cvssNorm, round1, roundHalfEven]
  · show compute_aura_score 8 0 true (ctx_mult_from (compute_context_fit exampleCtx))
      0 false
      (compute_ai_context_score "Acme" "Router"
        ("Acme Router " ++ exampleSummarizer (summarize_user_prompt "CVE-2025-0001"
          "Acme" "Router" "Acme Router" exampleCtx)) [] []) = 109/2
    rw [hs1, hai1, show ctx_mult_from (compute_context_fit exampleCtx) = 1 from rfl]
    norm_num [compute_aura_score, cvssNorm, round1, roundHalfEven]

/-- C6 (amended): the multiplier channel of the context profile is neutral:
compute_context_fit never returns a fit_score key, the scalar multiplier in
main is therefore 1.0 for every profile, and two runs differing only in the
profile give every record the same composite score whenever the analyst
summary text is unchanged (any ctx-independent summarizer), in particular
whenever the summarizer is inactive and the fixed fallback summary is used.
Run-level invariance fails in general only through the summarize_cve
channel shown by the counterexample. -/
theorem context_multiplier_channel_neutral :
    (∀ ctx : Option CtxProfile, lookupA (compute_context_fit ctx) "fit_score" = none
      ∧ ctx_mult_from (compute_context_fit ctx) = 1)
    ∧ (∀ (ctx ctx2 : Option CtxProfile) (cve vendor product : String)
        (cvss epss trend : ℚ) (exploit : Bool) (s : String),
        enrichScore cve vendor product cvss epss trend exploit ctx (fun _ => s) =
          enrichScore cve vendor product cvss epss trend exploit ctx2 (fun _ => s))
    ∧ (∀ (ctx ctx2 : Option CtxProfile) (cve vendor product : String)
        (cvss epss trend : ℚ) (exploit : Bool),
        enrichScoreNoClient cve vendor product cvss epss trend exploit ctx =
          enrichScoreNoClient cve vendor product cvss epss trend exploit ctx2) := by
  have h1 : ∀ c, ctx_mult_from (compute_context_fit c) = 1 := by
    intro c
    unfold ctx_mult_from
    rw [fit_lookup_none]
  refine ⟨fun ctx => ⟨fit_lookup_none ctx, h1 ctx⟩, ?_, ?_⟩
  · intro ctx ctx2 cve vendor product cvss epss trend exploit s
    simp only [enrichScore]
    rw [h1 ctx, h1 ctx2]
  · intro ctx ctx2 cve vendor product cvss epss trend exploit
    simp only [enrichScoreNoClient]
    rw [h1 ctx, h1 ctx2]

end Aura
